import Mathlib

/-!
Verification of the task-tracking web application's core subsystem:
the Firestore data-access layer (`addTask`, `getUserTasks`), the Redux
tasks slice (reducers and async-thunk phase transitions), the task-list
status-toggle flow with optimistic update and rollback, the suggestions
API route with its per-user quota, and the derived filter/paginate view.

Each JavaScript function is embedded as an executable Lean definition;
asynchronous effects are made explicit (outcomes of network calls are
passed in as parameters, state transitions are pure functions on the
state record).
-/

namespace TaskApp

/-- A task as held in the Redux store / returned by the data layer.
Timestamps `createdAt`/`updatedAt` are modelled as epoch milliseconds
(`none` when the field is absent on the object); `completedAt` is the
ISO string written by the toggle flow (`none` when absent). -/
structure Task where
  id : String
  userId : String
  title : String
  description : String
  status : String
  type : String
  dueDate : Option String
  createdAt : Option Int
  updatedAt : Option Int
  completedAt : Option String
  deriving Repr, DecidableEq

/-- The form data assembled by the Add Task page:
`{ title, description, status, type, dueDate }` (no timestamps). -/
structure TaskFormData where
  title : String
  description : String
  status : String
  type : String
  dueDate : String
  deriving Repr, DecidableEq

/-- The payload returned by the `createTask` thunk on success:
`{ id: taskId, ...taskData, userId }`.  The server-assigned
`createdAt`/`updatedAt` are not part of this object, and the form data
carries no `completedAt`, so all three are absent. -/
def createTaskPayload (userId taskId : String) (d : TaskFormData) : Task :=
  { id := taskId
    userId := userId
    title := d.title
    description := d.description
    status := d.status
    type := d.type
    dueDate := some d.dueDate
    createdAt := none
    updatedAt := none
    completedAt := none }

/-- State of the tasks slice:
`{ tasks: [], loading: false, error: null, lastUpdated: null }`. -/
structure TasksState where
  tasks : List Task
  loading : Bool
  error : Option String
  lastUpdated : Option String
  deriving Repr, DecidableEq

/-- `initialState` of the tasks slice. -/
def initialState : TasksState :=
  { tasks := [], loading := false, error := none, lastUpdated := none }

/-- Reducer `clearTasks`: sets `tasks = []`, `error = null`,
`lastUpdated = null` (it does not touch `loading`). -/
def clearTasks (s : TasksState) : TasksState :=
  { s with tasks := [], error := none, lastUpdated := none }

/-- Reducer `clearError`. -/
def clearError (s : TasksState) : TasksState :=
  { s with error := none }

/-- A shallow-merge update object (`updates` of `updateTaskLocal`, resp.
`taskData` of an `editTask` dispatch) as built by the toggle flow:
an optional `status` field and an optional `completedAt` field; `none`
means the field is absent from the object and is left untouched by the
spread `{ ...task, ...updates }`. -/
structure TaskPatch where
  status : Option String := none
  completedAt : Option String := none
  deriving Repr, DecidableEq

/-- The spread `{ ...task, ...updates }`: fields present in the update
object overwrite, absent fields are kept. -/
def applyPatch (t : Task) (p : TaskPatch) : Task :=
  { t with
    status := match p.status with | some s => s | none => t.status
    completedAt := match p.completedAt with | some c => some c | none => t.completedAt }

/-- `findIndex` by id followed by in-place replacement with the merged
object: only the first task whose `id` matches is replaced; when no task
matches, the list is unchanged. -/
def patchFirst (ts : List Task) (taskId : String) (p : TaskPatch) : List Task :=
  match ts with
  | [] => []
  | t :: rest =>
    if t.id = taskId then applyPatch t p :: rest
    else t :: patchFirst rest taskId p

/-- Reducer `updateTaskLocal` (the synchronous optimistic patch). -/
def updateTaskLocal (s : TasksState) (taskId : String) (p : TaskPatch) : TasksState :=
  { s with tasks := patchFirst s.tasks taskId p }

/-- `fetchTasks.pending`. -/
def fetchTasks_pending (s : TasksState) : TasksState :=
  { s with loading := true, error := none }

/-- `fetchTasks.fulfilled`: replace `tasks` wholesale, stamp `lastUpdated`. -/
def fetchTasks_fulfilled (s : TasksState) (payload : List Task) (now : String) : TasksState :=
  { s with loading := false, tasks := payload, lastUpdated := some now }

/-- `fetchTasks.rejected`. -/
def fetchTasks_rejected (s : TasksState) (msg : String) : TasksState :=
  { s with loading := false, error := some msg }

/-- `createTask.pending`. -/
def createTask_pending (s : TasksState) : TasksState :=
  { s with loading := true, error := none }

/-- `createTask.fulfilled`: `state.tasks.unshift(action.payload)`. -/
def createTask_fulfilled (s : TasksState) (payload : Task) : TasksState :=
  { s with loading := false, tasks := payload :: s.tasks }

/-- `createTask.rejected`. -/
def createTask_rejected (s : TasksState) (msg : String) : TasksState :=
  { s with loading := false, error := some msg }

/-- `editTask.pending`: clears `error` only (no global `loading`). -/
def editTask_pending (s : TasksState) : TasksState :=
  { s with error := none }

/-- `editTask.fulfilled`: locate by id and shallow-merge the payload. -/
def editTask_fulfilled (s : TasksState) (taskId : String) (p : TaskPatch) : TasksState :=
  { s with tasks := patchFirst s.tasks taskId p }

/-- `editTask.rejected`. -/
def editTask_rejected (s : TasksState) (msg : String) : TasksState :=
  { s with error := some msg }

/-- `getNextStatus` of the task list: the forward status cycle
(`switch` with a default of `pending`). -/
def getNextStatus (currentStatus : String) : String :=
  match currentStatus with
  | "pending" => "in-progress"
  | "in-progress" => "completed"
  | "completed" => "pending"
  | _ => "pending"

/-- The update object built by `handleToggleStatus`: `none` when the
task is already completed (the handler returns before building any
update or dispatching anything); otherwise `{ status: newStatus }`,
extended with `completedAt: now` when the new status is `completed`. -/
def toggleUpdates (currentStatus now : String) : Option TaskPatch :=
  if currentStatus = "completed" then none
  else
    let newStatus := getNextStatus currentStatus
    some { status := some newStatus
           completedAt := if newStatus = "completed" then some now else none }

/-- `handleToggleStatus` when the backing `editTask` fulfills:
optimistic `updateTaskLocal`, then the `editTask` pending and fulfilled
transitions (the fulfilled payload `{ id: taskId, ...taskData }` merges
the same fields).  No-op when the task is already completed. -/
def handleToggleStatus_fulfilled (s : TasksState) (taskId currentStatus now : String) :
    TasksState :=
  match toggleUpdates currentStatus now with
  | none => s
  | some p => editTask_fulfilled (editTask_pending (updateTaskLocal s taskId p)) taskId p

/-- `handleToggleStatus` when the backing `editTask` rejects:
optimistic `updateTaskLocal`, then the `editTask` pending and rejected
transitions, then the catch block's rollback dispatch
`updateTaskLocal({ taskId, updates: { status: currentStatus } })` —
which restores only the `status` field. -/
def handleToggleStatus_rejected (s : TasksState) (taskId currentStatus now msg : String) :
    TasksState :=
  match toggleUpdates currentStatus now with
  | none => s
  | some p =>
    updateTaskLocal (editTask_rejected (editTask_pending (updateTaskLocal s taskId p)) msg)
      taskId { status := some currentStatus, completedAt := none }

/-- A concrete payload for `createTask` built from the Add Task form
data of E2E scenario A. -/
def scenarioAPayload : Task :=
  createTaskPayload "U1" "task-1"
    { title := "Write report", description := "", status := "pending",
      type := "task", dueDate := "" }

/-- A task currently in progress, not yet completed. -/
def inProgressTask : Task :=
  { id := "t1", userId := "U1", title := "Write report", description := "",
    status := "in-progress", type := "task", dueDate := none,
    createdAt := some 1700000000000, updatedAt := some 1700000000000,
    completedAt := none }

/-- A state holding just `inProgressTask`. -/
def inProgressState : TasksState :=
  { tasks := [inProgressTask], loading := false, error := none, lastUpdated := none }

/-- A state caught mid-operation: `loading = true`. -/
def loadingState : TasksState :=
  { tasks := [], loading := true, error := some "network error",
    lastUpdated := some "2024-06-01T00:00:00.000Z" }

/-- Outcome of one `addDoc` round trip, indexed by the (0-based) value
of the `attempt` counter at the time of the call. `alreadyExists` is a
failure whose message includes `Document already exists` or whose code
is `already-exists`; `failure msg` is any other error, whose message
does not indicate a collision. -/
inductive AddDocOutcome where
  | ok (docId : String)
  | alreadyExists
  | failure (msg : String)
  deriving Repr, DecidableEq

/-- How a call to `addTask` resolves: with the created document id,
by throwing an error message, or (were the `while` loop ever exited
through its guard) by resolving with no value. -/
inductive AddTaskResult where
  | docId (s : String)
  | thrown (msg : String)
  | undef
  deriving Repr, DecidableEq

/-- `const maxRetries = 3`. -/
def maxRetries : Nat := 3

/-- The exhausted-retry conflict message. -/
def conflictMessage : String :=
  "Unable to create task due to ID conflict. Please try again."

/-- The validation message for a missing user id. -/
def missingUserIdMessage : String := "User ID is required"

/-- The message thrown when the database handle is not initialized. -/
def dbNotInitializedMessage : String := "Firestore database not initialized"

/-- A full execution of `addTask`: how it resolved, how many `addDoc`
round trips were issued, and the awaited retry delays (ms), in order. -/
structure AddTaskTrace where
  result : AddTaskResult
  addDocCalls : Nat
  delaysMs : List Nat
  deriving Repr, DecidableEq

/-- The `while (attempt < maxRetries)` loop of `addTask`.  `dbInit`
models whether the `db` handle is truthy; `outcome` gives the result of
the `addDoc` call for each value of `attempt`; `calls` and `delays`
accumulate the trace.  The in-loop `throw`s propagate out of the
function (nothing upstream catches them), so they end the recursion;
the `db`/`userId` validation errors are thrown inside `try`, caught,
match neither collision test and are rethrown unchanged.  On a
collision with `attempt < maxRetries - 1` the counter is incremented
and `100 * attempt` (post-increment) ms are awaited before continuing. -/
def addTaskLoop (dbInit : Bool) (userId : String) (outcome : Nat → AddDocOutcome)
    (attempt calls : Nat) (delays : List Nat) : AddTaskTrace :=
  if attempt < maxRetries then
    if dbInit = false then ⟨.thrown dbNotInitializedMessage, calls, delays⟩
    else if userId = "" then ⟨.thrown missingUserIdMessage, calls, delays⟩
    else
      match outcome attempt with
      | .ok docId => ⟨.docId docId, calls + 1, delays⟩
      | .alreadyExists =>
        if attempt < maxRetries - 1 then
          addTaskLoop dbInit userId outcome (attempt + 1) (calls + 1)
            (delays ++ [100 * (attempt + 1)])
        else ⟨.thrown conflictMessage, calls + 1, delays⟩
      | .failure msg => ⟨.thrown msg, calls + 1, delays⟩
  else ⟨.undef, calls, delays⟩
termination_by maxRetries - attempt
decreasing_by simp [maxRetries] at *; omega

/-- `addTask(userId, taskData)`: the loop entered with `attempt = 0`
and an empty trace. -/
def addTask (dbInit : Bool) (userId : String) (outcome : Nat → AddDocOutcome) :
    AddTaskTrace :=
  addTaskLoop dbInit userId outcome 0 0 []

/-- The client-side comparator of `getUserTasks`'s fallback path:
`0` when either side is missing `createdAt` (changing nothing),
otherwise `new Date(b.createdAt) - new Date(a.createdAt)`
(negative when `a` is newer, i.e. descending). -/
def compareCreatedAt (a b : Task) : Int :=
  match a.createdAt, b.createdAt with
  | none, _ => 0
  | _, none => 0
  | some x, some y => y - x

/-- The ordering admitted by the comparator for a stable comparison
sort: `a` may stay before `b` when the comparator does not require a
swap (`compare(a, b) ≤ 0`). -/
def createdAtLe (a b : Task) : Prop := compareCreatedAt a b ≤ 0

instance : DecidableRel createdAtLe := fun a b =>
  inferInstanceAs (Decidable (compareCreatedAt a b ≤ 0))

/-- The fallback path of `getUserTasks`: the plain owner query
(`where('userId', '==', userId)` and no ordering) followed by the
client-side `tasks.sort` with `compareCreatedAt`, modelled as a stable
comparison sort (insertion sort) over the admitted ordering. -/
def getUserTasksFallback (store : List Task) (userId : String) : List Task :=
  List.insertionSort createdAtLe (store.filter (fun t => t.userId = userId))

/-- A store with tasks of two owners, one task missing `createdAt`. -/
def sampleStore : List Task :=
  [inProgressTask,
   { inProgressTask with id := "t2", createdAt := none, status := "pending" },
   { inProgressTask with id := "t3", userId := "U2" },
   { inProgressTask with id := "t4", createdAt := some 1800000000000 }]

/-- A response of the suggestions route `POST` handler. -/
inductive SuggestionResponse where
  | badRequest
  | limitReached (count limit : Nat)
  | generationFailed
  | success (suggestion : String) (isFromCache : Bool) (remainingCount : Nat)
  deriving Repr, DecidableEq

/-- `const MAX_FREE_SUGGESTIONS = 20`. -/
def MAX_FREE_SUGGESTIONS : Nat := 20

/-- One full execution of the suggestions route: the HTTP response,
whether a text-generation call was attempted, and the user's stored
`suggestionCount` afterwards (`none` when no userStats document
exists). -/
structure SuggestionOutcome where
  response : SuggestionResponse
  generationAttempted : Bool
  storedCount : Option Nat
  deriving Repr, DecidableEq

/-- The suggestions route `POST` handler.  `stored` is the userStats
document's `suggestionCount` (`none` when the document does not exist;
`stored.getD 0` models `userStatsSnap.data().suggestionCount || 0`);
`suggestionContent` is the provider's trimmed message content (`none`
when absent, empty string when blank — both falsy).  On success the
count is updated to `suggestionCount + 1` when the document exists and
set to `1` otherwise, and the response carries
`MAX_FREE_SUGGESTIONS - (suggestionCount + 1)` and
`isFromCache: false`. -/
def suggestionsPOST (userId taskName : String) (stored : Option Nat)
    (suggestionContent : Option String) : SuggestionOutcome :=
  if userId = "" ∨ taskName = "" then ⟨.badRequest, false, stored⟩
  else
    let suggestionCount := stored.getD 0
    if MAX_FREE_SUGGESTIONS ≤ suggestionCount then
      ⟨.limitReached suggestionCount MAX_FREE_SUGGESTIONS, false, stored⟩
    else
      match suggestionContent with
      | none => ⟨.generationFailed, true, stored⟩
      | some s =>
        if s = "" then ⟨.generationFailed, true, stored⟩
        else
          ⟨.success s false (MAX_FREE_SUGGESTIONS - (suggestionCount + 1)), true,
           if stored.isSome then some (suggestionCount + 1) else some 1⟩

/-- The filter selection of the task list. -/
structure Filters where
  status : String
  type : String
  deriving Repr, DecidableEq

/-- Pagination state: 1-based `currentPage`, positive `itemsPerPage`. -/
structure Pagination where
  currentPage : Nat
  itemsPerPage : Nat
  deriving Repr, DecidableEq

/-- Result of the task list's `useMemo` projection. -/
structure ProjectedView where
  filteredTasks : List Task
  totalPages : Nat
  displayedTasks : List Task
  deriving Repr, DecidableEq

/-- The `useMemo` body of the task list: status filter (exact match
unless `all`), then type filter; `totalPages = Math.ceil(length /
itemsPerPage)` (written as the equivalent natural-number ceiling
division, for positive `itemsPerPage`); `displayedTasks =
filtered.slice(startIndex, endIndex)` with `startIndex = (currentPage -
1) * itemsPerPage` and `endIndex = startIndex + itemsPerPage`. -/
def project (tasks : List Task) (filters : Filters) (pagination : Pagination) :
    ProjectedView :=
  let filtered :=
    if filters.status ≠ "all" then tasks.filter (fun t => t.status = filters.status)
    else tasks
  let filtered :=
    if filters.type ≠ "all" then filtered.filter (fun t => t.type = filters.type)
    else filtered
  let totalPages :=
    (filtered.length + pagination.itemsPerPage - 1) / pagination.itemsPerPage
  let startIndex := (pagination.currentPage - 1) * pagination.itemsPerPage
  let endIndex := startIndex + pagination.itemsPerPage
  { filteredTasks := filtered
    totalPages := totalPages
    displayedTasks := (filtered.drop startIndex).take (endIndex - startIndex) }

end TaskApp

namespace TaskApp

/-- One-step unfolding of the loop body. -/
theorem addTaskLoop_eq (dbInit : Bool) (userId : String)
    (outcome : Nat → AddDocOutcome) (attempt calls : Nat) (delays : List Nat) :
    addTaskLoop dbInit userId outcome attempt calls delays =
      if attempt < maxRetries then
        if dbInit = false then ⟨.thrown dbNotInitializedMessage, calls, delays⟩
        else if userId = "" then ⟨.thrown missingUserIdMessage, calls, delays⟩
        else
          match outcome attempt with
          | .ok docId => ⟨.docId docId, calls + 1, delays⟩
          | .alreadyExists =>
            if attempt < maxRetries - 1 then
              addTaskLoop dbInit userId outcome (attempt + 1) (calls + 1)
                (delays ++ [100 * (attempt + 1)])
            else ⟨.thrown conflictMessage, calls + 1, delays⟩
          | .failure msg => ⟨.thrown msg, calls + 1, delays⟩
      else ⟨.undef, calls, delays⟩ := by
  rw [addTaskLoop]

/-- Loop body for a validated in-range iteration (`db` truthy, user id
non-empty, `attempt < 3`). -/
theorem addTaskLoop_step (userId : String) (outcome : Nat → AddDocOutcome)
    (attempt calls : Nat) (delays : List Nat)
    (hu : userId ≠ "") (hlt : attempt < 3) :
    addTaskLoop true userId outcome attempt calls delays =
      match outcome attempt with
      | .ok docId => ⟨.docId docId, calls + 1, delays⟩
      | .alreadyExists =>
        if attempt < 2 then
          addTaskLoop true userId outcome (attempt + 1) (calls + 1)
            (delays ++ [100 * (attempt + 1)])
        else ⟨.thrown conflictMessage, calls + 1, delays⟩
      | .failure msg => ⟨.thrown msg, calls + 1, delays⟩ := by
  rw [addTaskLoop_eq]
  simp [maxRetries, hu, hlt]

/-- C3: a rejected `fetchTasks` or `createTask` transition sets
`loading = false` and `error` to the rejection message and leaves
`tasks` exactly unchanged; the corresponding pending transition sets
`loading = true` and `error = none` (also leaving `tasks` unchanged). -/
theorem rejected_leaves_tasks_unchanged (s : TasksState) (msg : String) :
    (fetchTasks_rejected s msg).loading = false ∧
    (fetchTasks_rejected s msg).error = some msg ∧
    (fetchTasks_rejected s msg).tasks = s.tasks ∧
    (createTask_rejected s msg).loading = false ∧
    (createTask_rejected s msg).error = some msg ∧
    (createTask_rejected s msg).tasks = s.tasks ∧
    (fetchTasks_pending s).loading = true ∧
    (fetchTasks_pending s).error = none ∧
    (fetchTasks_pending s).tasks = s.tasks ∧
    (createTask_pending s).loading = true ∧
    (createTask_pending s).error = none ∧
    (createTask_pending s).tasks = s.tasks :=
  ⟨rfl, rfl, rfl, rfl, rfl, rfl, rfl, rfl, rfl, rfl, rfl, rfl⟩

/-- C4 counterexample: the task prepended by `createTask.fulfilled` is
the thunk payload `{ id, ...taskData, userId }`, whose `createdAt` is
absent (`isSome = false`): at this concrete input the task at index 0
does not have `createdAt` set, contrary to the claim. -/
theorem createTask_fulfilled_createdAt_cex :
    ((createTask_fulfilled initialState scenarioAPayload).tasks.head?.map
        (fun t => t.createdAt.isSome)) = some false :=
  rfl

/-- C4 (amended): `createTask.fulfilled` prepends the payload at index 0
(newest-first) and sets `loading = false`; the prepended task has
`completedAt` absent, but also `createdAt` absent — the server-assigned
`createdAt` is not part of the thunk payload and only appears after a
subsequent fetch. -/
theorem createTask_fulfilled_prepends (s : TasksState) (u taskId : String)
    (d : TaskFormData) :
    (createTask_fulfilled s (createTaskPayload u taskId d)).tasks
        = createTaskPayload u taskId d :: s.tasks ∧
    (createTask_fulfilled s (createTaskPayload u taskId d)).tasks.head?
        = some (createTaskPayload u taskId d) ∧
    (createTask_fulfilled s (createTaskPayload u taskId d)).loading = false ∧
    (createTaskPayload u taskId d).completedAt = none ∧
    (createTaskPayload u taskId d).createdAt = none :=
  ⟨rfl, rfl, rfl, rfl, rfl⟩

/-- C5: the toggle advances `pending` to `in-progress` and
`in-progress` to `completed`, in the latter case setting `completedAt`
to the current time in the same update object; for an already completed
task the handler returns before dispatching anything (no update object,
no network call, no state change) — `completed` is terminal for the
toggle interaction path. -/
theorem toggle_status_cycle (now : String) (s : TasksState) (taskId : String) :
    toggleUpdates "pending" now
        = some { status := some "in-progress", completedAt := none } ∧
    toggleUpdates "in-progress" now
        = some { status := some "completed", completedAt := some now } ∧
    toggleUpdates "completed" now = none ∧
    handleToggleStatus_fulfilled s taskId "completed" now = s ∧
    handleToggleStatus_rejected s taskId "completed" now "err" = s :=
  ⟨rfl, rfl, rfl, rfl, rfl⟩

/-- C6 counterexample: an `in-progress` → `completed` toggle that is
optimistically applied and then rejected is not rolled back to its
pre-change field values: the rollback restores only `status`, so the
optimistically written `completedAt` survives and the tasks list
differs from the pre-change list. -/
theorem toggle_rollback_cex :
    (handleToggleStatus_rejected inProgressState "t1" "in-progress"
        "2024-06-01T00:00:00.000Z" "network error").tasks
      ≠ inProgressState.tasks := by
  decide

/-- `patchFirst` on a list whose prefix contains no task with the given
id patches exactly the distinguished occurrence. -/
theorem patchFirst_append (pre suf : List Task) (t : Task) (tid : String)
    (p : TaskPatch) (hid : t.id = tid) (hpre : ∀ u ∈ pre, u.id ≠ tid) :
    patchFirst (pre ++ t :: suf) tid p = pre ++ applyPatch t p :: suf := by
  induction pre with
  | nil => simp [patchFirst, hid]
  | cons u rest ih =>
    have hu : u.id ≠ tid := hpre u (List.mem_cons_self u rest)
    simp only [List.cons_append, patchFirst, if_neg hu]
    exact congrArg (u :: ·) (ih fun v hv => hpre v (List.mem_cons_of_mem u hv))

/-- C6 (amended): when the backing edit rejects after an optimistic
toggle patch, the rollback restores only the `status` field to its
pre-change value: the patched task ends with its original status and
with `completedAt` overwritten to `now` exactly when the failed toggle
targeted `completed` (i.e. started from `in-progress`); in particular a
task starting with `status = pending` is restored exactly to its
pre-change field values, with no partial state. -/
theorem toggle_rollback (pre suf : List Task) (t : Task)
    (loading : Bool) (error lastUpdated : Option String) (now msg : String)
    (hpre : ∀ u ∈ pre, u.id ≠ t.id) (hc : t.status ≠ "completed") :
    (handleToggleStatus_rejected
        { tasks := pre ++ t :: suf, loading := loading, error := error,
          lastUpdated := lastUpdated } t.id t.status now msg).tasks
      = pre ++ { t with completedAt :=
                  if getNextStatus t.status = "completed" then some now
                  else t.completedAt } :: suf ∧
    (t.status = "pending" →
      (handleToggleStatus_rejected
          { tasks := pre ++ t :: suf, loading := loading, error := error,
            lastUpdated := lastUpdated } t.id t.status now msg).tasks
        = pre ++ t :: suf) := by
  have hmain :
      (handleToggleStatus_rejected
          { tasks := pre ++ t :: suf, loading := loading, error := error,
            lastUpdated := lastUpdated } t.id t.status now msg).tasks
        = pre ++ { t with completedAt :=
                    if getNextStatus t.status = "completed" then some now
                    else t.completedAt } :: suf := by
    simp only [handleToggleStatus_rejected, toggleUpdates, if_neg hc]
    simp only [updateTaskLocal, editTask_rejected, editTask_pending]
    rw [patchFirst_append pre suf t t.id _ rfl hpre]
    rw [patchFirst_append pre suf
      (applyPatch t ⟨some (getNextStatus t.status),
        if getNextStatus t.status = "completed" then some now else none⟩)
      t.id ⟨some t.status, none⟩ rfl hpre]
    by_cases h' : getNextStatus t.status = "completed"
    · simp [applyPatch, h']
    · simp [applyPatch, h']
  refine ⟨hmain, fun hp => ?_⟩
  rw [hmain]
  have hns : getNextStatus t.status = "in-progress" := by rw [hp]; rfl
  simp [hns]

/-- Witness for C6's amended theorem: a concrete pending task,
optimistically toggled then rejected, is restored exactly. -/
theorem toggle_rollback_witness :
    (handleToggleStatus_rejected
        { tasks := [{ inProgressTask with status := "pending" }],
          loading := false, error := none, lastUpdated := none }
        "t1" "pending" "2024-06-01T00:00:00.000Z" "network error").tasks
      = [{ inProgressTask with status := "pending" }] := by
  have h := toggle_rollback [] [] { inProgressTask with status := "pending" }
      false none none "2024-06-01T00:00:00.000Z" "network error"
      (by intro u hu; cases hu) (by decide)
  simpa using h.2 rfl

/-- C8 counterexample: `clearTasks` does not reset `loading`, so on a
state with `loading = true` the result differs from the initial state —
not every field equals its initial value. -/
theorem clearTasks_loading_cex : clearTasks loadingState ≠ initialState := by
  intro h
  have : (clearTasks loadingState).loading = initialState.loading := by rw [h]
  simp [clearTasks, loadingState, initialState] at this

/-- C8 (amended): `clearTasks` resets `tasks` to the empty sequence,
`error` to none and `lastUpdated` to none, leaving `loading` unchanged;
the result equals the initial state exactly when `loading` was already
false. -/
theorem clearTasks_resets (s : TasksState) :
    (clearTasks s).tasks = [] ∧
    (clearTasks s).error = none ∧
    (clearTasks s).lastUpdated = none ∧
    (clearTasks s).loading = s.loading ∧
    (s.loading = false → clearTasks s = initialState) :=
  ⟨rfl, rfl, rfl, rfl, fun h => by simp [clearTasks, initialState, h]⟩

/-- Witness for C8's amended theorem at a concrete state with
`loading = false`. -/
theorem clearTasks_resets_witness :
    clearTasks { tasks := [scenarioAPayload], loading := false,
                 error := some "e", lastUpdated := some "t" } = initialState :=
  (clearTasks_resets _).2.2.2.2 rfl

/-- The loop entered at `attempt = 2` resolves (last allowed attempt). -/
theorem addTaskLoop_two_resolves (dbInit : Bool) (userId : String)
    (outcome : Nat → AddDocOutcome) (calls : Nat) (delays : List Nat) :
    (addTaskLoop dbInit userId outcome 2 calls delays).result ≠ .undef := by
  rw [addTaskLoop_eq]
  cases dbInit
  · simp [maxRetries]
  · by_cases hu : userId = ""
    · simp [maxRetries, hu]
    · cases h2 : outcome 2 <;> simp [maxRetries, hu, h2]

/-- The loop entered at `attempt = 1` resolves. -/
theorem addTaskLoop_one_resolves (dbInit : Bool) (userId : String)
    (outcome : Nat → AddDocOutcome) (calls : Nat) (delays : List Nat) :
    (addTaskLoop dbInit userId outcome 1 calls delays).result ≠ .undef := by
  rw [addTaskLoop_eq]
  cases dbInit
  · simp [maxRetries]
  · by_cases hu : userId = ""
    · simp [maxRetries, hu]
    · cases h1 : outcome 1 with
      | ok i => simp [maxRetries, hu, h1]
      | alreadyExists =>
        have h := addTaskLoop_two_resolves true userId outcome (calls + 1)
          (delays ++ [100 * (1 + 1)])
        simpa [maxRetries, hu, h1] using h
      | failure m => simp [maxRetries, hu, h1]

/-- The loop entered at `attempt = 0` resolves. -/
theorem addTaskLoop_zero_resolves (dbInit : Bool) (userId : String)
    (outcome : Nat → AddDocOutcome) (calls : Nat) (delays : List Nat) :
    (addTaskLoop dbInit userId outcome 0 calls delays).result ≠ .undef := by
  rw [addTaskLoop_eq]
  cases dbInit
  · simp [maxRetries]
  · by_cases hu : userId = ""
    · simp [maxRetries, hu]
    · cases h0 : outcome 0 with
      | ok i => simp [maxRetries, hu, h0]
      | alreadyExists =>
        have h := addTaskLoop_one_resolves true userId outcome (calls + 1)
          (delays ++ [100 * (0 + 1)])
        simpa [maxRetries, hu, h0] using h
      | failure m => simp [maxRetries, hu, h0]

/-- C10: every execution of `addTask` terminates by resolving with a
document id or by throwing an error; the while loop, entered at any
attempt value below `maxRetries` (the retry branch only produces
`attempt + 1 ≤ 2 < 3`), never exits through its guard condition, so the
fall-through past the loop — which would resolve with no value — is
unreachable. -/
theorem addTask_always_resolves (dbInit : Bool) (userId : String)
    (outcome : Nat → AddDocOutcome) :
    ((∃ i, (addTask dbInit userId outcome).result = .docId i) ∨
     (∃ m, (addTask dbInit userId outcome).result = .thrown m)) ∧
    (∀ attempt calls delays, attempt < maxRetries →
      (addTaskLoop dbInit userId outcome attempt calls delays).result ≠ .undef) := by
  have hloop : ∀ attempt calls delays, attempt < maxRetries →
      (addTaskLoop dbInit userId outcome attempt calls delays).result ≠ .undef := by
    intro attempt calls delays h
    simp only [maxRetries] at h
    interval_cases attempt
    · exact addTaskLoop_zero_resolves dbInit userId outcome calls delays
    · exact addTaskLoop_one_resolves dbInit userId outcome calls delays
    · exact addTaskLoop_two_resolves dbInit userId outcome calls delays
  refine ⟨?_, hloop⟩
  have h0 : (addTask dbInit userId outcome).result ≠ .undef :=
    hloop 0 0 [] (by decide)
  cases hres : (addTask dbInit userId outcome).result with
  | docId i => exact Or.inl ⟨i, rfl⟩
  | thrown m => exact Or.inr ⟨m, rfl⟩
  | undef => exact absurd hres h0

/-- Witness for C10 at a concrete input, discharging the
`attempt < maxRetries` hypothesis. -/
theorem addTask_always_resolves_witness :
    (addTaskLoop true "U1" (fun _ => AddDocOutcome.ok "doc1") 0 0 []).result
      ≠ .undef :=
  (addTask_always_resolves true "U1" (fun _ => AddDocOutcome.ok "doc1")).2 0 0 []
    (by decide)

/-- C1: the retry contract of the create path.  An empty `userId` fails
with the validation error before any `addDoc` round trip; at most 3
`addDoc` attempts ever occur; a collision on attempts 1 and 2 followed
by success on attempt 3 yields the same document id as an immediate
success, after delays of 100 ms and 200 ms (`attempt × 100`); three
collisions surface the conflict error; a non-collision failure is
surfaced immediately, unretried — whether it happens on the first
attempt or after a collision. -/
theorem addTask_retry_contract (userId : String) (outcome : Nat → AddDocOutcome)
    (hu : userId ≠ "") :
    addTask true "" outcome = ⟨.thrown missingUserIdMessage, 0, []⟩ ∧
    (addTask true userId outcome).addDocCalls ≤ 3 ∧
    (∀ docId, outcome 0 = .alreadyExists → outcome 1 = .alreadyExists →
      outcome 2 = .ok docId →
      addTask true userId outcome = ⟨.docId docId, 3, [100, 200]⟩ ∧
      (addTask true userId outcome).result
        = (addTask true userId (fun _ => .ok docId)).result) ∧
    ((∀ a, outcome a = .alreadyExists) →
      addTask true userId outcome = ⟨.thrown conflictMessage, 3, [100, 200]⟩) ∧
    (∀ msg, outcome 0 = .failure msg →
      addTask true userId outcome = ⟨.thrown msg, 1, []⟩) ∧
    (∀ msg, outcome 0 = .alreadyExists → outcome 1 = .failure msg →
      addTask true userId outcome = ⟨.thrown msg, 2, [100]⟩) := by
  refine ⟨?_, ?_, ?_, ?_, ?_, ?_⟩
  · rw [addTask, addTaskLoop_eq]
    simp [maxRetries]
  · rw [addTask, addTaskLoop_step userId outcome 0 0 [] hu (by decide)]
    cases h0 : outcome 0 with
    | ok i => simp
    | failure m => simp
    | alreadyExists =>
      simp only [show (0:Nat) < 2 by decide, if_true]
      rw [addTaskLoop_step userId outcome (0 + 1) (0 + 1) ([] ++ [100 * (0 + 1)])
        hu (by decide)]
      cases h1 : outcome (0 + 1) with
      | ok i => simp
      | failure m => simp
      | alreadyExists =>
        simp only [show (0:Nat) + 1 < 2 by decide, if_true]
        rw [addTaskLoop_step userId outcome (0 + 1 + 1) (0 + 1 + 1)
          (([] ++ [100 * (0 + 1)]) ++ [100 * (0 + 1 + 1)]) hu (by decide)]
        cases h2 : outcome (0 + 1 + 1) <;> simp
  · intro docId h0 h1 h2
    constructor
    · rw [addTask, addTaskLoop_step userId outcome 0 0 [] hu (by decide)]
      simp only [h0]
      simp only [show (0:Nat) < 2 by decide, if_true]
      rw [addTaskLoop_step userId outcome (0 + 1) (0 + 1) ([] ++ [100 * (0 + 1)])
        hu (by decide)]
      simp only [h1]
      simp only [show (0:Nat) + 1 < 2 by decide, if_true]
      rw [addTaskLoop_step userId outcome (0 + 1 + 1) (0 + 1 + 1)
        (([] ++ [100 * (0 + 1)]) ++ [100 * (0 + 1 + 1)]) hu (by decide)]
      simp only [h2]
      simp
    · rw [addTask, addTaskLoop_step userId outcome 0 0 [] hu (by decide)]
      simp only [h0]
      simp only [show (0:Nat) < 2 by decide, if_true]
      rw [addTaskLoop_step userId outcome (0 + 1) (0 + 1) ([] ++ [100 * (0 + 1)])
        hu (by decide)]
      simp only [h1]
      simp only [show (0:Nat) + 1 < 2 by decide, if_true]
      rw [addTaskLoop_step userId outcome (0 + 1 + 1) (0 + 1 + 1)
        (([] ++ [100 * (0 + 1)]) ++ [100 * (0 + 1 + 1)]) hu (by decide)]
      simp only [h2]
      rw [addTask, addTaskLoop_step userId (fun _ => AddDocOutcome.ok docId) 0 0 []
        hu (by decide)]
  · intro hall
    rw [addTask, addTaskLoop_step userId outcome 0 0 [] hu (by decide)]
    simp only [hall 0]
    simp only [show (0:Nat) < 2 by decide, if_true]
    rw [addTaskLoop_step userId outcome (0 + 1) (0 + 1) ([] ++ [100 * (0 + 1)])
      hu (by decide)]
    simp only [hall (0 + 1)]
    simp only [show (0:Nat) + 1 < 2 by decide, if_true]
    rw [addTaskLoop_step userId outcome (0 + 1 + 1) (0 + 1 + 1)
      (([] ++ [100 * (0 + 1)]) ++ [100 * (0 + 1 + 1)]) hu (by decide)]
    simp only [hall (0 + 1 + 1)]
    simp
  · intro msg h0
    rw [addTask, addTaskLoop_step userId outcome 0 0 [] hu (by decide)]
    simp only [h0]
  · intro msg h0 h1
    rw [addTask, addTaskLoop_step userId outcome 0 0 [] hu (by decide)]
    simp only [h0]
    simp only [show (0:Nat) < 2 by decide, if_true]
    rw [addTaskLoop_step userId outcome (0 + 1) (0 + 1) ([] ++ [100 * (0 + 1)])
      hu (by decide)]
    simp only [h1]
    simp

/-- Witness for C1: three straight collisions at a concrete input
surface the conflict error after 3 attempts and delays 100 ms, 200 ms. -/
theorem addTask_retry_contract_witness :
    addTask true "U1" (fun _ => AddDocOutcome.alreadyExists)
      = ⟨.thrown conflictMessage, 3, [100, 200]⟩ :=
  (addTask_retry_contract "U1" (fun _ => AddDocOutcome.alreadyExists)
    (by decide)).2.2.2.1 (fun _ => rfl)

/-- For a total relation, inserting into a consecutively linked list
keeps it consecutively linked (no transitivity is needed, which matters
because the comparator relation with missing `createdAt` is not
transitive). -/
theorem chain'_orderedInsert {α : Type} (r : α → α → Prop) [DecidableRel r]
    (total : ∀ a b, r a b ∨ r b a) (a : α) :
    ∀ l : List α, l.Chain' r → (l.orderedInsert r a).Chain' r
  | [], _ => by simp
  | b :: l, h => by
    rw [List.orderedInsert]
    by_cases hab : r a b
    · rw [if_pos hab]
      exact h.cons hab
    · rw [if_neg hab]
      have hba : r b a := (total a b).resolve_left hab
      have htail : (l.orderedInsert r a).Chain' r :=
        chain'_orderedInsert r total a l h.tail
      refine List.chain'_cons'.mpr ⟨?_, htail⟩
      intro y hy
      cases l with
      | nil =>
        simp at hy
        subst hy
        exact hba
      | cons c l' =>
        rw [List.orderedInsert] at hy
        by_cases hac : r a c
        · rw [if_pos hac] at hy
          simp at hy
          subst hy
          exact hba
        · rw [if_neg hac] at hy
          simp at hy
          subst hy
          exact (List.chain'_cons.mp h).1

/-- A stable insertion sort by a total relation leaves every pair of
consecutive elements related. -/
theorem chain'_insertionSort {α : Type} (r : α → α → Prop) [DecidableRel r]
    (total : ∀ a b, r a b ∨ r b a) :
    ∀ l : List α, (l.insertionSort r).Chain' r
  | [] => List.chain'_nil
  | b :: l => by
    rw [List.insertionSort]
    exact chain'_orderedInsert r total b _ (chain'_insertionSort r total l)

/-- The comparator ordering is total (any two tasks are comparable,
missing `createdAt` comparing equal to everything). -/
theorem createdAtLe_total (a b : Task) : createdAtLe a b ∨ createdAtLe b a := by
  unfold createdAtLe compareCreatedAt
  cases a.createdAt <;> cases b.createdAt <;> simp <;> omega

/-- C2: for a fixed stored set of tasks, the ordered-query path — any
server result consisting of the owner-filtered documents in server
order — and the missing-index fallback path return the identical set of
tasks (a permutation of each other); the fallback's client-side sort
leaves consecutive tasks non-increasing by `createdAt`, where a missing
`createdAt` on either side makes the comparator return 0, changing
nothing. -/
theorem getUserTasks_paths_equiv (store : List Task) (userId : String)
    (ordered : List Task)
    (hserver : ordered.Perm (store.filter (fun t => t.userId = userId))) :
    ordered.Perm (getUserTasksFallback store userId) ∧
    (getUserTasksFallback store userId).Chain' createdAtLe ∧
    (∀ a b : Task, a.createdAt = none ∨ b.createdAt = none →
      compareCreatedAt a b = 0) := by
  refine ⟨?_, ?_, ?_⟩
  · exact hserver.trans (List.perm_insertionSort createdAtLe _).symm
  · exact chain'_insertionSort createdAtLe createdAtLe_total _
  · intro a b h
    rcases h with h | h
    · simp [compareCreatedAt, h]
    · cases ha : a.createdAt <;> simp [compareCreatedAt, h, ha]

/-- Witness for C2 at a concrete store (one task missing `createdAt`),
with the server order taken to be the filtered store itself. -/
theorem getUserTasks_paths_equiv_witness :
    (sampleStore.filter (fun t => t.userId = "U1")).Perm
      (getUserTasksFallback sampleStore "U1") :=
  (getUserTasks_paths_equiv sampleStore "U1"
    (sampleStore.filter (fun t => t.userId = "U1")) (List.Perm.refl _)).1

/-- C7: with a non-empty owner id and task name, a stored count at the
limit is rejected with the quota signal carrying the current count and
the limit, attempts no generation and leaves the stored count
unchanged; below the limit a successful generation advances the stored
count to `n + 1` and returns `remainingCount = 20 - (n + 1)` — in
particular a user at 19 advances to 20 with `remainingCount = 0`. -/
theorem suggestions_quota (userId taskName s : String)
    (hu : userId ≠ "") (ht : taskName ≠ "") (hs : s ≠ "") :
    (∀ (n : Nat) (content : Option String), MAX_FREE_SUGGESTIONS ≤ n →
      suggestionsPOST userId taskName (some n) content
        = ⟨.limitReached n MAX_FREE_SUGGESTIONS, false, some n⟩) ∧
    suggestionsPOST userId taskName (some 19) (some s)
        = ⟨.success s false 0, true, some 20⟩ ∧
    (∀ n : Nat, n < MAX_FREE_SUGGESTIONS →
      suggestionsPOST userId taskName (some n) (some s)
        = ⟨.success s false (MAX_FREE_SUGGESTIONS - (n + 1)), true, some (n + 1)⟩) := by
  refine ⟨?_, ?_, ?_⟩
  · intro n content hn
    simp [suggestionsPOST, hu, ht, hn]
  · simp [suggestionsPOST, hu, ht, hs, MAX_FREE_SUGGESTIONS]
  · intro n hn
    simp [suggestionsPOST, hu, ht, hs, Nat.not_le.mpr hn]

/-- Witness for C7: a concrete user at 19 of 20 with a concrete
generated text advances to 20 with zero remaining. -/
theorem suggestions_quota_witness :
    suggestionsPOST "U1" "Write report" (some 19) (some "Keep going")
      = ⟨.success "Keep going" false 0, true, some 20⟩ :=
  (suggestions_quota "U1" "Write report" "Keep going"
    (by decide) (by decide) (by decide)).2.1

/-- C9: the derived view is a pure function of its arguments; the
filtered list keeps exactly the tasks matching the status filter (when
not `all`) and the type filter (when not `all`); `totalPages` is the
ceiling of `filtered.length / itemsPerPage` — the least `c` with
`filtered.length ≤ itemsPerPage * c` — and is `0` when the filtered
list is empty; `displayedTasks` is the slice
`filtered[(currentPage-1)*itemsPerPage : ... + itemsPerPage]`; and the
page never holds more than `itemsPerPage` tasks. -/
theorem project_contract (tasks : List Task) (filters : Filters)
    (pagination : Pagination) (hsize : 0 < pagination.itemsPerPage)
    (hpage : 1 ≤ pagination.currentPage) :
    project tasks filters pagination = project tasks filters pagination ∧
    (∀ t, t ∈ (project tasks filters pagination).filteredTasks ↔
      t ∈ tasks ∧ (filters.status = "all" ∨ t.status = filters.status) ∧
        (filters.type = "all" ∨ t.type = filters.type)) ∧
    (project tasks filters pagination).filteredTasks.length
        ≤ pagination.itemsPerPage * (project tasks filters pagination).totalPages ∧
    (∀ c, (project tasks filters pagination).filteredTasks.length
        ≤ pagination.itemsPerPage * c →
      (project tasks filters pagination).totalPages ≤ c) ∧
    ((project tasks filters pagination).filteredTasks = [] →
      (project tasks filters pagination).totalPages = 0) ∧
    (project tasks filters pagination).displayedTasks
        = ((project tasks filters pagination).filteredTasks.drop
            ((pagination.currentPage - 1) * pagination.itemsPerPage)).take
          pagination.itemsPerPage ∧
    (project tasks filters pagination).displayedTasks.length
        ≤ pagination.itemsPerPage := by
  have hceil : (project tasks filters pagination).totalPages
      = (project tasks filters pagination).filteredTasks.length
          ⌈/⌉ pagination.itemsPerPage := rfl
  have hslice : (project tasks filters pagination).displayedTasks
      = ((project tasks filters pagination).filteredTasks.drop
          ((pagination.currentPage - 1) * pagination.itemsPerPage)).take
        pagination.itemsPerPage := by
    have h : ((pagination.currentPage - 1) * pagination.itemsPerPage
        + pagination.itemsPerPage) - (pagination.currentPage - 1) * pagination.itemsPerPage
        = pagination.itemsPerPage := by omega
    simp [project, h]
  refine ⟨rfl, ?_, ?_, ?_, ?_, hslice, ?_⟩
  · intro t
    by_cases hst : filters.status = "all" <;> by_cases hty : filters.type = "all" <;>
      simp [project, hst, hty, List.mem_filter, and_assoc] <;> tauto
  · rw [hceil]
    exact (ceilDiv_le_iff_le_mul hsize).1 le_rfl
  · intro c hc
    rw [hceil]
    exact (ceilDiv_le_iff_le_mul hsize).2 hc
  · intro hempty
    rw [hceil, hempty]
    simp
  · rw [hslice]
    exact List.length_take_le _ _

/-- Witness for C9 at a concrete input. -/
theorem project_contract_witness :
    (project [inProgressTask] ⟨"all", "all"⟩ ⟨1, 20⟩).displayedTasks.length ≤ 20 :=
  (project_contract [inProgressTask] ⟨"all", "all"⟩ ⟨1, 20⟩
    (by decide) (by decide)).2.2.2.2.2.2

end TaskApp
